import Mathlib

/-!
Verification of the Obscura anti-fingerprinting core: a shallow embedding of
the seeded PRNG, the canvas pixel-noise and export-transform paths, the
patch/unpatch registry, and the WebGL parameter/readback wrappers, together
with theorems settling the specified behavioural properties.

JS numbers are modelled by Nat/Int with explicit 32-bit truncation where the
source coerces (`>>> 0`, `Math.imul`, `&`, `^`); strings that are hashed are
modelled by their lists of UTF-16 code units; typed-array stores clamp.
-/

namespace Obscura

/-- Truncation to an unsigned 32-bit value, as performed by the JS `>>> 0`
coercion and by storing into a 32-bit lane. -/
def u32 (n : Nat) : Nat := n % 4294967296

/-- Interpretation of an integer as a signed 32-bit value (JS ToInt32). -/
def toInt32 (n : Int) : Int :=
  let m := n.emod 4294967296
  if m < 2147483648 then m else m - 4294967296

/-- JS bitwise XOR of two integer values: both operands are reduced to their
32-bit bit patterns, XORed, and the result is read back as a signed 32-bit
integer. -/
def jsXor (a b : Int) : Int :=
  toInt32 (Int.ofNat (Nat.xor ((a.emod 4294967296).toNat) ((b.emod 4294967296).toNat)))

/-- Core xorshift32 step of createPRNG (core.js lines 63-68, bootstrap.js lines
157-162): state ^= state << 13; state ^= state >>> 17; state ^= state << 5,
all on 32-bit words, returning the new state as an unsigned 32-bit integer. -/
def xorshift32 (s : Nat) : Nat :=
  let s1 := Nat.xor s (u32 (s <<< 13))
  let s2 := Nat.xor s1 (s1 >>> 17)
  Nat.xor s2 (u32 (s2 <<< 5))

/-- FNV-1a hash of createPRNG.hash (core.js lines 112-125) over a list of
UTF-16 code units: XOR each unit into the accumulator, then 32-bit multiply
(Math.imul) by the FNV prime 16777619, starting from the offset basis
2166136261; the result is unsigned 32-bit. -/
def fnvHash (s : List Nat) : Nat :=
  s.foldl (fun h c => u32 ((Nat.xor h c) * 16777619)) 2166136261

/-- Seed handling of createPRNG (core.js lines 44-57, bootstrap.js lines
138-151). In JS `!seed` is true for 0, so a zero seed is replaced by
Date.now() — modelled by the `now` argument; the chosen value is coerced to
unsigned 32-bit by `seed >>> 0`, and a coerced state of 0 is remapped to 1. -/
def initState (seed : Int) (now : Nat) : Nat :=
  let s : Int := if seed = 0 then (now : Int) else seed
  let st : Nat := (s.emod 4294967296).toNat
  if st = 0 then 1 else st

/-- One call on the generator object returned by createPRNG. -/
inductive PRNGCall where
  | random : PRNGCall
  | randomInt : Int → Int → PRNGCall
  | randomRange : Int → Int → PRNGCall
  | hashStr : List Nat → PRNGCall
deriving DecidableEq

/-- Output of one generator call. random and randomRange return floats that
are exact functions of the raw 32-bit draw (division by 2^32 is exact in
double precision, and min/max are the call's own arguments), so they are
represented by the raw draw; hash returns the 32-bit hash value; randomInt
returns its integer. -/
inductive PRNGOut where
  | num : Nat → PRNGOut
  | intVal : Int → PRNGOut
deriving DecidableEq

/-- Value of randomInt(min, max) (core.js lines 91-95) given the raw 32-bit
draw: floor(draw / 2^32 * (max - min + 1)) + min, computed exactly. The JS
double arithmetic coincides with the exact value for the ranges the code uses
(max - min + 1 below 2^21 keeps the product within 53 bits); Math.ceil and
Math.floor on the bounds are the identity here since bounds are integers. -/
def randomIntVal (draw : Nat) (mn mx : Int) : Int :=
  Int.fdiv ((draw : Int) * (mx - mn + 1)) 4294967296 + mn

/-- One step of the generator: random, randomInt and randomRange each advance
the xorshift32 state exactly once; hash is a pure function of its string and
leaves the state untouched (core.js lines 70-126). -/
def prngStep (st : Nat) : PRNGCall → PRNGOut × Nat
  | .random => (.num (xorshift32 st), xorshift32 st)
  | .randomInt mn mx => (.intVal (randomIntVal (xorshift32 st) mn mx), xorshift32 st)
  | .randomRange _ _ => (.num (xorshift32 st), xorshift32 st)
  | .hashStr s => (.num (fnvHash s), st)

/-- Outputs of a generator driven through a sequence of calls from a state. -/
def prngRun (st : Nat) : List PRNGCall → List PRNGOut
  | [] => []
  | c :: cs =>
    let r := prngStep st c
    r.1 :: prngRun r.2 cs

/-- Result of a JS call: a returned value or a thrown exception (identified by
a numeric tag; the particular exception object is irrelevant to the claims). -/
inductive JsResult (α : Type) where
  | ok : α → JsResult α
  | thrown : Nat → JsResult α
deriving DecidableEq

/-- tryOrFallback (core.js lines 187-200, bootstrap.js lines 83-96): apply the
spoof function to the receiver and arguments; if it throws, then when hardBlock
is set rethrow a fresh error, and otherwise apply the original native function
to the same receiver and arguments and return its result verbatim. -/
def tryOrFallback {Ctx Args α : Type} (hardBlock : Bool)
    (nativeFn : Ctx → Args → JsResult α) (spoofFn : Ctx → Args → JsResult α)
    (context : Ctx) (args : Args) : JsResult α :=
  match spoofFn context args with
  | .ok v => .ok v
  | .thrown _ => if hardBlock then .thrown 0 else nativeFn context args

/-- A JS function value occupying a prototype slot or an originalMethods entry:
null, a native browser function (slot tag and identity), or one of the wrapper
closures installed by patch, each closing over the method it captured. Slots
0, 1, 2 stand for getImageData, toDataURL and getContext. -/
inductive Method where
  | nullref : Method
  | native : Nat → Nat → Method
  | wrapper : Nat → Method → Method
deriving DecidableEq

/-- The three patched prototype slots: CanvasRenderingContext2D.getImageData,
HTMLCanvasElement.toDataURL, HTMLCanvasElement.getContext. -/
structure CanvasProtos where
  getImageData : Method
  toDataURL : Method
  getContext : Method
deriving DecidableEq

/-- The originalMethods registry (bootstrap.js lines 254-258); each entry is
null until patch captures a method into it. -/
structure Registry where
  getImageData : Method
  toDataURL : Method
  getContext : Method
deriving DecidableEq

/-- Global module state of bootstrap.js: the host prototype slots, the
captured-originals registry and the isPatched flag. -/
structure BootState where
  protos : CanvasProtos
  registry : Registry
  isPatched : Bool
deriving DecidableEq

/-- patch (bootstrap.js lines 452-513): returns immediately when already
patched; otherwise captures the three current prototype methods into
originalMethods and replaces each slot with a wrapper closing over the
captured original, then sets isPatched. -/
def patch (st : BootState) : BootState :=
  if st.isPatched then st
  else
    { protos := ⟨Method.wrapper 0 st.protos.getImageData,
                 Method.wrapper 1 st.protos.toDataURL,
                 Method.wrapper 2 st.protos.getContext⟩,
      registry := ⟨st.protos.getImageData, st.protos.toDataURL, st.protos.getContext⟩,
      isPatched := true }

/-- unpatch (bootstrap.js lines 520-543): returns immediately when not
patched; otherwise writes the three originalMethods entries back into the
prototype slots verbatim and clears isPatched (the registry entries are left
in place, as in the source). -/
def unpatch (st : BootState) : BootState :=
  if st.isPatched then
    { protos := ⟨st.registry.getImageData, st.registry.toDataURL, st.registry.getContext⟩,
      registry := st.registry,
      isPatched := false }
  else st

/-- Observable result of init (bootstrap.js lines 421-445): the stored session
seed (reported verbatim by getStatus) and the created session PRNG state. -/
structure SessionInit where
  sessionSeed : Int
  prngState : Nat
deriving DecidableEq

/-- init (bootstrap.js lines 421-445): `sessionSeed = seed || generateSessionSeed()`
treats a missing and a falsy (0) seed alike, substituting the entropy-derived
value (modelled by the entropy argument); the session PRNG is created from the
chosen seed (now models Date.now() inside createPRNG). -/
def init (seed : Option Int) (entropy : Nat) (now : Nat) : SessionInit :=
  let s : Int := match seed with
    | none => entropy
    | some v => if v = 0 then entropy else v
  ⟨s, initState s now⟩

/-- The identity strings of a simulated GPU profile (part_000 lines 17-169);
the parameter tables and extension lists are not needed by the claims settled
here. -/
structure GPUProfile where
  vendor : String
  renderer : String
  unmaskedVendor : String
  unmaskedRenderer : String
deriving DecidableEq

/-- First catalogue entry of ProfileManager.profiles (part_000 lines 19-89). -/
def nvidiaProfile : GPUProfile :=
  ⟨"WebKit", "WebKit WebGL", "Google Inc. (NVIDIA)",
   "ANGLE (NVIDIA, NVIDIA GeForce RTX 3080 Direct3D11 vs_5_0 ps_5_0, D3D11)"⟩

/-- Second catalogue entry of ProfileManager.profiles (part_000 lines 90-160). -/
def amdProfile : GPUProfile :=
  ⟨"WebKit", "WebKit WebGL", "Google Inc. (AMD)",
   "ANGLE (AMD, AMD Radeon RX 6800 XT Direct3D11 vs_5_0 ps_5_0, D3D11)"⟩

/-- Value returned by gl.getParameter: a spoofed string, or whatever the real
implementation returns for the queried token. -/
inductive GLValue where
  | str : String → GLValue
  | nativeResult : Nat → GLValue
deriving DecidableEq

/-- WEBGL_debug_renderer_info token UNMASKED_VENDOR_WEBGL. -/
def UNMASKED_VENDOR_WEBGL : Nat := 0x9245

/-- WEBGL_debug_renderer_info token UNMASKED_RENDERER_WEBGL. -/
def UNMASKED_RENDERER_WEBGL : Nat := 0x9246

/-- Core WebGL enum VENDOR. -/
def GL_VENDOR : Nat := 0x1F00

/-- Core WebGL enum RENDERER. -/
def GL_RENDERER : Nat := 0x1F01

/-- The wrapped gl.getParameter installed by applyWebGLSpoofing (part_000
lines 302-325): the two unmasked debug tokens map to the active profile's
unmasked strings, the standard VENDOR/RENDERER tokens to the profile's generic
strings, and every other token passes through to the original getParameter. -/
def spoofedGetParameter (profile : GPUProfile) (orig : Nat → GLValue) (pname : Nat) : GLValue :=
  if pname = UNMASKED_VENDOR_WEBGL then .str profile.unmaskedVendor
  else if pname = UNMASKED_RENDERER_WEBGL then .str profile.unmaskedRenderer
  else if pname = GL_VENDOR then .str profile.vendor
  else if pname = GL_RENDERER then .str profile.renderer
  else orig pname

/-- Decimal digit char codes of n (fuel-indexed helper). -/
def natCharsAux : Nat → Nat → List Nat
  | 0, _ => []
  | fuel + 1, n => if n < 10 then [48 + n] else natCharsAux fuel (n / 10) ++ [48 + n % 10]

/-- UTF-16 code units of the JS decimal string for a nonnegative integer. -/
def natChars (n : Nat) : List Nat := natCharsAux (n + 1) n

/-- Code units of the JS string "undefined", produced when an out-of-bounds
typed-array read is interpolated into a template string. -/
def undefinedChars : List Nat := [117, 110, 100, 101, 102, 105, 110, 101, 100]

/-- Code units contributed by interpolating data[i]: the decimal value when
the index is in bounds, the string "undefined" otherwise. -/
def jsIndexChars (data : List Nat) (i : Nat) : List Nat :=
  match data.get? i with
  | some v => natChars v
  | none => undefinedChars

/-- Content fingerprint string of spoofGetImageData (bootstrap.js line 295):
`${width}x${height}:${data[0]}${data[100]}${data[1000]}` as code units
(120 is x, 58 is the colon). -/
def contentFingerprint (w h : Nat) (data : List Nat) : List Nat :=
  natChars w ++ [120] ++ natChars h ++ [58] ++
    jsIndexChars data 0 ++ jsIndexChars data 100 ++ jsIndexChars data 1000

/-- Math.max(0, Math.min(255, v)) on an integer, which is also the store
semantics of a Uint8ClampedArray lane for an integral value. -/
def clamp255 (v : Int) : Nat := (max 0 (min 255 v)).toNat

/-- One randomInt(mn, mx) call against state st: the value and the advanced
state. -/
def drawInt (st : Nat) (mn mx : Int) : Int × Nat :=
  (randomIntVal (xorshift32 st) mn mx, xorshift32 st)

/-- Pixel-noise loop of spoofGetImageData (bootstrap.js lines 306-323): per
RGBA quad, three randomInt(-rgbR, rgbR) draws are added to R, G and B under the
explicit Math.max/Math.min clamp; when the alpha byte is exactly 255 a fourth
draw randomInt(0, aR) is subtracted from 255 (the Uint8ClampedArray store
clamps the result). A trailing fragment shorter than one quad is unchanged. -/
def noisePixels (rgbR aR : Int) (st : Nat) : List Nat → List Nat
  | r :: g :: b :: a :: rest =>
    let rd := drawInt st (-rgbR) rgbR
    let gd := drawInt rd.2 (-rgbR) rgbR
    let bd := drawInt gd.2 (-rgbR) rgbR
    let r2 := clamp255 ((r : Int) + rd.1)
    let g2 := clamp255 ((g : Int) + gd.1)
    let b2 := clamp255 ((b : Int) + bd.1)
    if a = 255 then
      let ad := drawInt bd.2 0 aR
      r2 :: g2 :: b2 :: clamp255 (255 - ad.1) :: noisePixels rgbR aR ad.2 rest
    else
      r2 :: g2 :: b2 :: a :: noisePixels rgbR aR bd.2 rest
  | other => other

/-- spoofGetImageData (bootstrap.js lines 284-326) applied to the buffer the
original getImageData returned: build the content fingerprint from the canvas
dimensions and sampled bytes, hash it with the session generator's stateless
FNV-1a hash, derive contentPRNG = createPRNG(sessionSeed ^ contentHash) — the
clock argument matters only when that XOR is 0 — and run the noise loop with
the configured ranges. The session PRNG state is not advanced. -/
def spoofGetImageData (sessionSeed : Int) (now : Nat) (w h : Nat)
    (data : List Nat) (rgbR aR : Int) : List Nat :=
  let contentHash := fnvHash (contentFingerprint w h data)
  let cseed := jsXor sessionSeed (Int.ofNat contentHash)
  noisePixels rgbR aR (initState cseed now) data

/-- A 4x4 fully opaque red surface: 16 RGBA pixels, each (255, 0, 0, 255). -/
def red4x4 : List Nat := List.flatten (List.replicate 16 [255, 0, 0, 255])

/-- Raw xorshift32 draws behind the five randomRange calls of
applyCanvasTransform (bootstrap.js lines 229-247), in draw order: scaleX,
scaleY, translateX, translateY, rotate. Each float parameter is a fixed
function of its raw draw, so this tuple determines the affine jitter. -/
structure TransformDraws where
  scaleX : Nat
  scaleY : Nat
  translateX : Nat
  translateY : Nat
  rotate : Nat
deriving DecidableEq

/-- applyCanvasTransform against the session generator: five successive state
advances, returning the draws and the advanced session state. -/
def applyCanvasTransform (st : Nat) : TransformDraws × Nat :=
  let d1 := xorshift32 st
  let d2 := xorshift32 d1
  let d3 := xorshift32 d2
  let d4 := xorshift32 d3
  let d5 := xorshift32 d4
  (⟨d1, d2, d3, d4, d5⟩, d5)

/-- Observable result of spoofToDataURL (bootstrap.js lines 336-365), modelled
symbolically: the returned data URL serializes the scratch canvas, which holds
the source content re-drawn under the jittered transform, so it is determined
by (and here represented as) the transform draws paired with the content. -/
structure ExportOut where
  transform : TransformDraws
  content : List Nat
deriving DecidableEq

/-- spoofToDataURL (bootstrap.js lines 336-365): draw the five-parameter
jitter from the evolving session generator, re-draw the canvas content under
it, serialize; returns the output and the advanced session state. -/
def spoofToDataURL (st : Nat) (content : List Nat) : ExportOut × Nat :=
  let t := applyCanvasTransform st
  (⟨t.1, content⟩, t.2)

/-- The 31x string hash used by the WebGL wrappers (part_000 lines 344-348 and
399-402): hash = ((hash << 5) - hash) + charCode per character, with
`hash = hash & hash` coercing back to a signed 32-bit integer each step. -/
def jsStringHash (codes : List Nat) : Int :=
  codes.foldl (fun h c => toInt32 (toInt32 (h * 32) - h + c)) 0

/-- Seed string `${x},${y},${width},${height},${index}` of the readPixels
noise function (part_000 line 343), as code units (44 is the comma). -/
def readPixelsSeed (x y w h idx : Nat) : List Nat :=
  natChars x ++ [44] ++ natChars y ++ [44] ++ natChars w ++ [44] ++
    natChars h ++ [44] ++ natChars idx

/-- pixelNoise of the wrapped gl.readPixels (part_000 lines 341-352):
(hash % 7) - 3, where % is the JS remainder and therefore keeps the sign of
the hash. -/
def pixelNoise (x y w h : Nat) (idx : Nat) : Int :=
  Int.tmod (jsStringHash (readPixelsSeed x y w h idx)) 7 - 3

/-- Noise loop of the wrapped gl.readPixels (part_000 lines 354-364) for an
RGBA buffer (components = 4): the bytes at offsets 0, 1 and 2 of each pixel
receive pixelNoise at their flat index under the explicit clamp, and the alpha
byte at offset 3 is never written. i is the flat index of the current head. -/
def readPixelsNoiseRGBA (x y w h : Nat) (i : Nat) : List Nat → List Nat
  | r :: g :: b :: a :: rest =>
    clamp255 ((r : Int) + pixelNoise x y w h i) ::
    clamp255 ((g : Int) + pixelNoise x y w h (i + 1)) ::
    clamp255 ((b : Int) + pixelNoise x y w h (i + 2)) ::
    a :: readPixelsNoiseRGBA x y w h (i + 4) rest
  | other => other

/-- Session state visible to the WebGL wrapper closures: the configured seed
and the SessionPRNG state. The wrappers capture it lexically. -/
structure WebGLSession where
  seed : Int
  prngState : Nat
deriving DecidableEq

/-- The wrapped gl.readPixels (part_000 lines 332-365) after the real call has
populated the buffer. The session PRNG is in scope in the source closure but
the body never reads it: the noise depends only on the read rectangle and the
flat byte index. -/
def wrappedReadPixels (_session : WebGLSession) (x y w h : Nat)
    (pixels : List Nat) : List Nat :=
  readPixelsNoiseRGBA x y w h 0 pixels

/-- Per-pixel hash of the WebGL toDataURL/toBlob wrappers (part_000 lines
396-403 and 444-451): the seed string is `${x},${y},${canvasId}` over the
pixel coordinates and the canvas id. -/
def exportNoiseHash (x y : Nat) (canvasId : List Nat) : Int :=
  jsStringHash (natChars x ++ [44] ++ natChars y ++ [44] ++ canvasId)

/-- Export noise loop of the WebGL toDataURL/toBlob wrappers (part_000 lines
394-410 and 443-456): per RGBA quad at flat index i, the pixel coordinates are
x = (i/4) % width and y = (i/4) / width; R adds hash % 7 - 3, G adds
(hash >> 3) % 7 - 3, B adds (hash >> 6) % 7 - 3 (arithmetic shifts are floor
divisions by 8 and 64), all clamped; alpha is unchanged. -/
def exportNoisePixels (width : Nat) (canvasId : List Nat) (i : Nat) : List Nat → List Nat
  | r :: g :: b :: a :: rest =>
    let x := (i / 4) % width
    let y := (i / 4) / width
    let hsh := exportNoiseHash x y canvasId
    clamp255 ((r : Int) + (Int.tmod hsh 7 - 3)) ::
    clamp255 ((g : Int) + (Int.tmod (Int.fdiv hsh 8) 7 - 3)) ::
    clamp255 ((b : Int) + (Int.tmod (Int.fdiv hsh 64) 7 - 3)) ::
    a :: exportNoisePixels width canvasId (i + 4) rest
  | other => other

/-- The wrapped canvas.toDataURL for a WebGL canvas (part_000 lines 372-420):
re-draw onto a scratch 2D canvas, apply the deterministic per-pixel noise, and
re-serialize — modelled by the noised buffer. The session PRNG is in scope but
unused. -/
def wrappedGLToDataURL (_session : WebGLSession) (width : Nat)
    (canvasId : List Nat) (pixels : List Nat) : List Nat :=
  exportNoisePixels width canvasId 0 pixels

/-- The wrapped canvas.toBlob for a WebGL canvas (part_000 lines 423-467):
identical per-pixel noise on the scratch canvas before serializing. -/
def wrappedGLToBlob (_session : WebGLSession) (width : Nat)
    (canvasId : List Nat) (pixels : List Nat) : List Nat :=
  exportNoisePixels width canvasId 0 pixels

/-- When the seed is nonzero (truthy in JS), createPRNG's initial state does
not depend on the ambient clock. -/
theorem initState_const (seed : Int) (h : seed ≠ 0) (now1 now2 : Nat) :
    initState seed now1 = initState seed now2 := by
  simp [initState, h]

/-- The clamp always lands in [0, 255]. -/
theorem clamp255_le (v : Int) : clamp255 v ≤ 255 := by
  unfold clamp255
  have h2 : max 0 (min 255 v) ≤ (255 : Int) := max_le (by norm_num) (min_le_left _ _)
  omega

/-- Every byte produced by the 2D pixel-noise loop is at most 255, provided
the input bytes are (as Uint8ClampedArray entries are). -/
theorem noisePixels_mem_le (rgbR aR : Int) (st : Nat) (data : List Nat) :
    (∀ v ∈ data, v ≤ 255) → ∀ v ∈ noisePixels rgbR aR st data, v ≤ 255 := by
  induction st, data using noisePixels.induct rgbR aR with
  | case1 st r g b rest rd gd bd ad ih =>
    intro hdata x hx
    simp only [noisePixels, reduceIte, List.mem_cons] at hx
    have hrest : ∀ v ∈ rest, v ≤ 255 := fun v hv => hdata v (by simp [hv])
    rcases hx with h | h | h | h | h
    · exact h ▸ clamp255_le _
    · exact h ▸ clamp255_le _
    · exact h ▸ clamp255_le _
    · exact h ▸ clamp255_le _
    · exact ih hrest x h
  | case2 st r g b a rest rd gd bd hne ih =>
    intro hdata x hx
    simp only [noisePixels, if_neg hne, List.mem_cons] at hx
    have hrest : ∀ v ∈ rest, v ≤ 255 := fun v hv => hdata v (by simp [hv])
    rcases hx with h | h | h | h | h
    · exact h ▸ clamp255_le _
    · exact h ▸ clamp255_le _
    · exact h ▸ clamp255_le _
    · exact h ▸ hdata a (by simp)
    · exact ih hrest x h
  | case3 st other hno =>
    intro hdata x hx
    rcases other with _ | ⟨r, _ | ⟨g, _ | ⟨b, _ | ⟨a, rest⟩⟩⟩⟩
    · simp only [noisePixels] at hx
      exact hdata x hx
    · simp only [noisePixels] at hx
      exact hdata x hx
    · simp only [noisePixels] at hx
      exact hdata x hx
    · simp only [noisePixels] at hx
      exact hdata x hx
    · exact (hno r g b a rest rfl).elim

/-- Every byte produced by the readPixels noise loop is at most 255, provided
the input bytes are. -/
theorem readPixelsNoiseRGBA_mem_le (x y w h i0 : Nat) (data : List Nat) :
    (∀ v ∈ data, v ≤ 255) → ∀ v ∈ readPixelsNoiseRGBA x y w h i0 data, v ≤ 255 := by
  induction i0, data using readPixelsNoiseRGBA.induct x y w h with
  | case1 i r g b a rest ih =>
    intro hdata t ht
    simp only [readPixelsNoiseRGBA, List.mem_cons] at ht
    have hrest : ∀ v ∈ rest, v ≤ 255 := fun v hv => hdata v (by simp [hv])
    rcases ht with hh | hh | hh | hh | hh
    · exact hh ▸ clamp255_le _
    · exact hh ▸ clamp255_le _
    · exact hh ▸ clamp255_le _
    · exact hh ▸ hdata a (by simp)
    · exact ih hrest t hh
  | case2 i other hno =>
    intro hdata t ht
    rcases other with _ | ⟨r, _ | ⟨g, _ | ⟨b, _ | ⟨a, rest⟩⟩⟩⟩
    · simp only [readPixelsNoiseRGBA] at ht
      exact hdata t ht
    · simp only [readPixelsNoiseRGBA] at ht
      exact hdata t ht
    · simp only [readPixelsNoiseRGBA] at ht
      exact hdata t ht
    · simp only [readPixelsNoiseRGBA] at ht
      exact hdata t ht
    · exact (hno r g b a rest rfl).elim

/-- C1: for every nonzero seed S, all creation times and every call sequence,
two generators created by createPRNG(S) and driven identically return
bit-identical outputs at every step; and whenever S XOR hash(F) is nonzero,
the content-keyed generator createPRNG(S XOR hash(F)) is likewise
reproducible. (The original claim over all seeds fails at S = 0, which JS
treats as falsy and replaces with the current time; see the counterexample.) -/
theorem c1_prng_determinism (S : Int) (F : List Nat) (now1 now2 now3 now4 : Nat)
    (calls1 calls2 : List PRNGCall)
    (hS : S ≠ 0) (hX : jsXor S (Int.ofNat (fnvHash F)) ≠ 0) :
    prngRun (initState S now1) calls1 = prngRun (initState S now2) calls1 ∧
    prngRun (initState (jsXor S (Int.ofNat (fnvHash F))) now3) calls2 =
      prngRun (initState (jsXor S (Int.ofNat (fnvHash F))) now4) calls2 := by
  exact ⟨by rw [initState_const S hS now1 now2],
         by rw [initState_const _ hX now3 now4]⟩

/-- C1 witness: the determinism theorem applied at seed 12345 and fingerprint
"test", with both hypotheses discharged concretely. -/
theorem c1_prng_determinism_witness :
    (12345 : Int) ≠ 0 ∧
    jsXor 12345 (Int.ofNat (fnvHash [116, 101, 115, 116])) ≠ 0 ∧
    prngRun (initState 12345 0) [PRNGCall.random] =
      prngRun (initState 12345 99) [PRNGCall.random] :=
  ⟨by decide, by decide,
   (c1_prng_determinism 12345 [116, 101, 115, 116] 0 99 0 99
      [PRNGCall.random] [PRNGCall.random] (by decide) (by decide)).1⟩

/-- C1 counterexample: createPRNG(0) substitutes Date.now() for the falsy seed
0, so two generators created with seed 0 at clock values 2 and 3 already
disagree on their first random() draw — the claim fails for seed 0. -/
theorem c1_counterexample :
    prngRun (initState 0 2) [PRNGCall.random] ≠ prngRun (initState 0 3) [PRNGCall.random] := by
  decide

/-- C2: with a fixed session seed, two successive wrapped getImageData calls
on the unchanged fully opaque red 4x4 surface return identical noised buffers
(whenever the content-keyed seed sessionSeed XOR contentHash is nonzero, which
holds for every session seed except the single value equal to the content
hash); and with session seed 12345, two successive wrapped toDataURL calls on
that same unchanged surface return different serialized output, because the
export transform draws from the evolving session generator. -/
theorem c2_content_stability_export_drift (s : Int) (now1 now2 : Nat)
    (hx : jsXor s (Int.ofNat (fnvHash (contentFingerprint 4 4 red4x4))) ≠ 0) :
    spoofGetImageData s now1 4 4 red4x4 5 3 = spoofGetImageData s now2 4 4 red4x4 5 3 ∧
    (spoofToDataURL (initState 12345 0) red4x4).1 ≠
      (spoofToDataURL ((spoofToDataURL (initState 12345 0) red4x4).2) red4x4).1 := by
  constructor
  · simp only [spoofGetImageData]
    rw [initState_const _ hx now1 now2]
  · decide

/-- C2 witness: the theorem at session seed 12345 and equal clock values, with
the nonzero-XOR hypothesis discharged by computation. -/
theorem c2_content_stability_export_drift_witness :
    jsXor 12345 (Int.ofNat (fnvHash (contentFingerprint 4 4 red4x4))) ≠ 0 ∧
    spoofGetImageData 12345 0 4 4 red4x4 5 3 = spoofGetImageData 12345 1 4 4 red4x4 5 3 :=
  ⟨by decide, (c2_content_stability_export_drift 12345 0 1 (by decide)).1⟩

/-- C3: for every wrapped method, receiver and argument list, if the spoof path
throws and hard-block mode is disabled, the wrapped call returns exactly what
the original native method returns for the same receiver and arguments. -/
theorem c3_fallback_transparency {Ctx Args α : Type}
    (nativeFn : Ctx → Args → JsResult α) (spoofFn : Ctx → Args → JsResult α)
    (context : Ctx) (args : Args) (e : Nat)
    (hthrow : spoofFn context args = .thrown e) :
    tryOrFallback false nativeFn spoofFn context args = nativeFn context args := by
  simp [tryOrFallback, hthrow]

/-- C3 witness: a spoof path that always throws, with hard-block disabled,
yields the native result 42. -/
theorem c3_fallback_transparency_witness :
    (fun (_ : Nat) (_ : Nat) => (JsResult.thrown 1 : JsResult Nat)) 0 0 = JsResult.thrown 1 ∧
    tryOrFallback false (fun (_ : Nat) (_ : Nat) => (JsResult.ok 42 : JsResult Nat))
      (fun _ _ => JsResult.thrown 1) 0 0 = JsResult.ok 42 :=
  ⟨rfl, c3_fallback_transparency (fun _ _ => JsResult.ok 42) (fun _ _ => JsResult.thrown 1)
      0 0 1 rfl⟩

/-- C4: patch is idempotent on the whole module state (registry and prototype
slots included), unpatch is idempotent, and from any pre-install (unpatched)
state, patch followed by unpatch restores the identical pre-install method
references to every patched prototype slot. -/
theorem c4_patch_unpatch_idempotent (st : BootState) :
    patch (patch st) = patch st ∧
    unpatch (unpatch st) = unpatch st ∧
    (st.isPatched = false → (unpatch (patch st)).protos = st.protos) := by
  by_cases h : st.isPatched <;> simp [patch, unpatch, h]

/-- C4 witness: the round trip applied to a concrete unpatched state with
three distinct native methods. -/
theorem c4_patch_unpatch_idempotent_witness :
    (BootState.mk ⟨Method.native 0 10, Method.native 1 11, Method.native 2 12⟩
        ⟨Method.nullref, Method.nullref, Method.nullref⟩ false).isPatched = false ∧
    (unpatch (patch (BootState.mk
        ⟨Method.native 0 10, Method.native 1 11, Method.native 2 12⟩
        ⟨Method.nullref, Method.nullref, Method.nullref⟩ false))).protos =
      (BootState.mk ⟨Method.native 0 10, Method.native 1 11, Method.native 2 12⟩
        ⟨Method.nullref, Method.nullref, Method.nullref⟩ false).protos :=
  ⟨rfl, (c4_patch_unpatch_idempotent _).2.2 rfl⟩

/-- C5 counterexample: seeding with 0 does not behave like seeding with 1.
In createPRNG, `!seed` is true for 0, so the seed is replaced by Date.now()
(here with clock value 2, giving state 2), while seed 1 gives state 1; the
first random() draws differ. The remap-to-1 branch is unreachable for the
literal seed 0. -/
theorem c5_counterexample :
    prngRun (initState 0 2) [PRNGCall.random] ≠ prngRun (initState 1 2) [PRNGCall.random] := by
  decide

/-- C5 amended: the zero remap applies after the unsigned 32-bit coercion of a
truthy seed, not to the literal seed 0: createPRNG(4294967296) — a nonzero
seed whose `>>> 0` coercion is 0 — behaves identically to createPRNG(1) for
every call sequence, while createPRNG(0) substitutes the current time. -/
theorem c5_amended_zero_remap (now : Nat) (calls : List PRNGCall) :
    prngRun (initState 4294967296 now) calls = prngRun (initState 1 now) calls := by
  have h : initState 4294967296 now = initState 1 now := by
    norm_num [initState]
  rw [h]

/-- C6 counterexample: init(0, …) does not adopt 0 as the session seed — the
`seed || generateSessionSeed()` idiom treats 0 as absent, so with generated
entropy value 7 getStatus reports sessionSeed 7, not 0. -/
theorem c6_counterexample : (init (some 0) 7 0).sessionSeed ≠ 0 := by
  decide

/-- C6 amended: for every nonzero override seed s, init adopts s verbatim as
the session seed, bypassing entropy mixing (the reported seed and the created
PRNG state are independent of the entropy source and of the clock), so the
session noise is a deterministic function of s alone. Seed 0 is falsy in JS
and instead triggers entropy-based generation. -/
theorem c6_amended_nonzero_seed_verbatim (s : Int) (hs : s ≠ 0)
    (e1 e2 now1 now2 : Nat) :
    (init (some s) e1 now1).sessionSeed = s ∧
    (init (some s) e1 now1).prngState = (init (some s) e2 now2).prngState := by
  refine ⟨by simp [init, hs], ?_⟩
  simp only [init, hs, if_false]
  exact initState_const s hs now1 now2

/-- C6 witness: the amended theorem at seed 5 with different entropy and clock
values. -/
theorem c6_amended_nonzero_seed_verbatim_witness :
    (5 : Int) ≠ 0 ∧
    (init (some 5) 7 0).sessionSeed = 5 ∧
    (init (some 5) 7 0).prngState = (init (some 5) 8 9).prngState :=
  ⟨by decide, (c6_amended_nonzero_seed_verbatim 5 (by decide) 7 8 0 9).1,
   (c6_amended_nonzero_seed_verbatim 5 (by decide) 7 8 0 9).2⟩

/-- C7: with any active profile and any real getParameter, the wrapped call
returns the profile's unmasked renderer and vendor strings verbatim for the
two debug tokens, the profile's generic vendor and renderer strings for the
standard tokens, and the real implementation's result for every other token. -/
theorem c7_get_parameter_spoof (profile : GPUProfile) (orig : Nat → GLValue) :
    spoofedGetParameter profile orig UNMASKED_RENDERER_WEBGL = .str profile.unmaskedRenderer ∧
    spoofedGetParameter profile orig UNMASKED_VENDOR_WEBGL = .str profile.unmaskedVendor ∧
    spoofedGetParameter profile orig GL_VENDOR = .str profile.vendor ∧
    spoofedGetParameter profile orig GL_RENDERER = .str profile.renderer ∧
    ∀ pname, pname ≠ UNMASKED_VENDOR_WEBGL → pname ≠ UNMASKED_RENDERER_WEBGL →
      pname ≠ GL_VENDOR → pname ≠ GL_RENDERER →
      spoofedGetParameter profile orig pname = orig pname := by
  refine ⟨?_, ?_, ?_, ?_, ?_⟩
  · simp [spoofedGetParameter, UNMASKED_RENDERER_WEBGL, UNMASKED_VENDOR_WEBGL]
  · simp [spoofedGetParameter]
  · simp [spoofedGetParameter, GL_VENDOR, UNMASKED_RENDERER_WEBGL, UNMASKED_VENDOR_WEBGL]
  · simp [spoofedGetParameter, GL_RENDERER, GL_VENDOR, UNMASKED_RENDERER_WEBGL,
      UNMASKED_VENDOR_WEBGL]
  · intro pname h1 h2 h3 h4
    simp [spoofedGetParameter, h1, h2, h3, h4]

/-- C7 witness: the theorem at the NVIDIA profile, with the pass-through
conjunct applied to the unrelated token MAX_TEXTURE_SIZE (0x0D33). -/
theorem c7_get_parameter_spoof_witness :
    spoofedGetParameter nvidiaProfile (fun n => GLValue.nativeResult n) UNMASKED_RENDERER_WEBGL
      = GLValue.str nvidiaProfile.unmaskedRenderer ∧
    spoofedGetParameter nvidiaProfile (fun n => GLValue.nativeResult n) 0x0D33
      = GLValue.nativeResult 0x0D33 :=
  ⟨(c7_get_parameter_spoof nvidiaProfile (fun n => GLValue.nativeResult n)).1,
   (c7_get_parameter_spoof nvidiaProfile (fun n => GLValue.nativeResult n)).2.2.2.2
      0x0D33 (by decide) (by decide) (by decide) (by decide)⟩

set_option maxRecDepth 4096 in
/-- C8 evidence: at the read rectangle x = 0, y = 0, width = 1, height = 1
(the exact call the repository's own diagnostics issue), the pixelNoise offset
at flat byte index 0 is -6 and at index 4 is -9 — outside the documented
symmetric range [-3, 3]. The 31x hash of the seed string is negative and the
JS remainder keeps its sign, so the actual offset range is [-9, 3]. -/
theorem c8_noise_range_violation :
    pixelNoise 0 0 1 1 0 = -6 ∧ pixelNoise 0 0 1 1 4 = -9 := by
  decide

/-- C9: for every input pixel buffer whose bytes are valid (at most 255, as a
typed array guarantees), every noise-range configuration and every generator
state, every byte after the 2D getImageData pixel-noise transform and after
the WebGL readPixels perturbation lies in [0, 255] (the lower bound holds
because bytes are naturals). -/
theorem c9_clamp_invariant (rgbR aR : Int) (st : Nat) (data : List Nat)
    (x y w h i0 : Nat) (hdata : ∀ v ∈ data, v ≤ 255) :
    (∀ v ∈ noisePixels rgbR aR st data, v ≤ 255) ∧
    (∀ v ∈ readPixelsNoiseRGBA x y w h i0 data, v ≤ 255) :=
  ⟨noisePixels_mem_le rgbR aR st data hdata,
   readPixelsNoiseRGBA_mem_le x y w h i0 data hdata⟩

/-- C9 witness: the invariant applied to one opaque red pixel, with an
extreme alpha-noise range, under both transforms. -/
theorem c9_clamp_invariant_witness :
    (∀ v ∈ [255, 0, 0, 255], v ≤ 255) ∧
    (∀ v ∈ noisePixels 5 300 1 [255, 0, 0, 255], v ≤ 255) ∧
    (∀ v ∈ readPixelsNoiseRGBA 0 0 1 1 0 [255, 0, 0, 255], v ≤ 255) :=
  ⟨by decide,
   (c9_clamp_invariant 5 300 1 [255, 0, 0, 255] 0 0 1 1 0 (by decide)).1,
   (c9_clamp_invariant 5 300 1 [255, 0, 0, 255] 0 0 1 1 0 (by decide)).2⟩

/-- C10: the noise applied by the wrapped WebGL readPixels, toDataURL and
toBlob is a function only of the read rectangle, byte index, pixel coordinates
and canvas id: two sessions with arbitrary (in particular different) seeds and
generator states receive bit-identical perturbations on the same call. -/
theorem c10_webgl_noise_session_independent (s1 s2 : WebGLSession)
    (x y w h width : Nat) (canvasId : List Nat) (pixels : List Nat) :
    wrappedReadPixels s1 x y w h pixels = wrappedReadPixels s2 x y w h pixels ∧
    wrappedGLToDataURL s1 width canvasId pixels = wrappedGLToDataURL s2 width canvasId pixels ∧
    wrappedGLToBlob s1 width canvasId pixels = wrappedGLToBlob s2 width canvasId pixels :=
  ⟨rfl, rfl, rfl⟩

end Obscura
